import Mathlib

/-!
Shallow embedding of the sonata-nvda synthesizer driver
(addon/synthDrivers/sonata_neural_voices) in Lean 4.

The embedding translates the data model and the operations of
`tts_system.py`, `__init__.py` (the task compiler and scheduler glue) and
`grpc_client/__init__.py` (the engine process supervisor) into pure Lean
functions; Python object mutation becomes explicit state passing, and
Python exceptions become `Except` results.
-/

namespace Sonata

/-- Error type for the lookup errors raised by `tts_system.py`
(`VoiceNotFoundError`, `SpeakerNotFoundError`). -/
inductive TTSError where
  | voiceNotFound
  | speakerNotFound
deriving Repr, DecidableEq

/-- NVDA host function `languageHandler.normalizeLanguage`. It is external
to this repository (the host screen reader), so it is modelled as the
identity on language codes; none of the theorems below depend on its
behaviour beyond it being a function. -/
def normalizeLanguage (lang : String) : String := lang

/-- Python `s.split("-")`: split on every occurrence of the one-character
separator, keeping empty fragments ("a--b" gives ["a", "", "b"], "" gives
[""]), written over the character list so that it evaluates inside the
kernel. -/
def pySplitDash (s : String) : List String :=
  (s.toList.splitOn (Char.ofNat 45)).map (fun cs => String.mk cs)

/-- A loaded voice, as used by the compiler: the relevant attributes of
`SonataVoice` (tts_system.py) after `load()` has populated `sample_rate`.
`key` is the directory-name key, `language` the normalized language code. -/
structure SonataVoice where
  key : String
  name : String
  language : String
  sampleRate : Nat
deriving Repr, DecidableEq

/-- `SpeechOptions` (tts_system.py lines 201-233): the active synthesis
configuration.  `rate`, `volume`, `pitch` and `sentenceSilenceMs` are
`None` in Python until set, hence `Option Int`. -/
structure SpeechOptions where
  voice : SonataVoice
  rate : Option Int
  volume : Option Int
  pitch : Option Int
  sentenceSilenceMs : Option Int
deriving Repr, DecidableEq

/-- `SpeechOptions.copy` (tts_system.py lines 223-224): `copy.copy(self)`,
a shallow copy of a slotted object.  In a pure state-passing embedding a
shallow copy of the current value is the current value itself; mutations of
the live options later produce distinct values and leave this one intact,
which is exactly the snapshot semantics the Python copy provides. -/
def SpeechOptions.copy (o : SpeechOptions) : SpeechOptions := o

/-- `SpeechOptions.set_voice` (tts_system.py lines 211-213); `voice.load()`
is an idempotent remote call that does not change the fields modelled
here. -/
def SpeechOptions.setVoice (o : SpeechOptions) (v : SonataVoice) : SpeechOptions :=
  { o with voice := v }

/-- State of a `SonataTextToSpeechSystem` (tts_system.py lines 236-391):
the installed voices and the live speech options. -/
structure TTSState where
  voices : List SonataVoice
  speechOptions : SpeechOptions
deriving Repr, DecidableEq

/-- Language getter (tts_system.py lines 293-296). -/
def TTSState.language (st : TTSState) : String :=
  st.speechOptions.voice.language

/-- Rate setter (tts_system.py lines 338-341). -/
def TTSState.setRate (st : TTSState) (v : Int) : TTSState :=
  { st with speechOptions := { st.speechOptions with rate := some v } }

/-- Volume setter (tts_system.py lines 326-329). -/
def TTSState.setVolume (st : TTSState) (v : Int) : TTSState :=
  { st with speechOptions := { st.speechOptions with volume := some v } }

/-- Pitch setter (tts_system.py lines 350-353). -/
def TTSState.setPitch (st : TTSState) (v : Int) : TTSState :=
  { st with speechOptions := { st.speechOptions with pitch := some v } }

/-- Language setter (tts_system.py lines 298-317): normalize; no-op when the
current voice already has that language; otherwise the first voice with an
exactly matching language wins, else the first voice whose language starts
with the primary-subtag prefix, else `VoiceNotFoundError`. -/
def TTSState.setLanguage (st : TTSState) (newLanguage : String) : Except TTSError TTSState :=
  let lang := normalizeLanguage newLanguage
  if st.speechOptions.voice.language = lang then
    Except.ok st
  else
    let langCode := ((pySplitDash lang).headD "") ++ "-"
    match st.voices.find? (fun v => v.language == lang) with
    | some v => Except.ok { st with speechOptions := st.speechOptions.setVoice v }
    | none =>
      match st.voices.find? (fun v => v.language.startsWith langCode) with
      | some v => Except.ok { st with speechOptions := st.speechOptions.setVoice v }
      | none => Except.error TTSError.voiceNotFound

/-- `SpeechProvider` (tts_system.py lines 58-68): a pending request to speak
some text, with its `SpeechOptions` snapshot. -/
structure SpeechProvider where
  text : String
  speechOptions : SpeechOptions
deriving Repr, DecidableEq

/-- `SilenceProvider` (tts_system.py lines 45-55): a pending timed pause at
a given sample rate. -/
structure SilenceProvider where
  timeMs : Int
  sampleRate : Nat
deriving Repr, DecidableEq

/-- `SilenceProvider.generate_audio` (tts_system.py lines 52-55):
`num_samples = int((time_ms / 1000.0) * sample_rate); bytes(num_samples * 2)`.
Python computes the sample count in binary floating point and truncates
toward zero; here it is computed in exact integer arithmetic with
truncating division (`Int.div` truncates toward zero like Python `int()`).
At the concrete inputs the claims evaluate (300 ms, 22050 Hz) the float
product is exactly representable as 6615.0, so the two agree.  Each list
element is one zero byte of the returned byte string. -/
def SilenceProvider.generate_audio (p : SilenceProvider) : List Nat :=
  List.replicate ((Int.tdiv (p.timeMs * (p.sampleRate : Int)) 1000).toNat * 2) 0

/-- `SonataTextToSpeechSystem.create_speech_provider` (tts_system.py
lines 366-367): text plus a copy of the live options. -/
def TTSState.createSpeechProvider (st : TTSState) (text : String) : SpeechProvider :=
  { text := text, speechOptions := st.speechOptions.copy }

/-- `SonataTextToSpeechSystem.create_break_provider` (tts_system.py
lines 369-370): duration plus the current voice sample rate. -/
def TTSState.createBreakProvider (st : TTSState) (timeMs : Int) : SilenceProvider :=
  { timeMs := timeMs, sampleRate := st.speechOptions.voice.sampleRate }

/-- One element of an incoming NVDA speech sequence, as dispatched on in
`SynthDriver._fast_prepare_and_run_speech_task` (`__init__.py` lines
315-348): plain strings and the supported command classes.  `langChange
none` models `LangChangeCommand` with `isDefault` set. -/
inductive SpeechCommand where
  | text (s : String)
  | index (i : Int)
  | brk (timeMs : Int)
  | langChange (lang : Option String)
  | rate (newValue : Int)
  | volume (newValue : Int)
  | pitch (newValue : Int)
deriving Repr, DecidableEq

/-- One compiled task of a plan: the four task classes of `__init__.py`
(`SpeechTask` lines 82-101, `BreakTask` lines 103-115, `IndexReachedTask`
lines 70-79, `DoneSpeakingTask` lines 58-67).  The player handle held by
the Python objects is not part of the compile-time payload modelled here. -/
inductive Task where
  | speechTask (provider : SpeechProvider)
  | breakTask (provider : SilenceProvider)
  | indexReachedTask (indexList : List Int)
  | doneSpeakingTask
deriving Repr, DecidableEq

/-- Whether a task produces audio (a speech or break task). -/
def Task.isAudio : Task → Bool
  | Task.speechTask _ => true
  | Task.breakTask _ => true
  | _ => false

/-- Whether a task is an index-marker task. -/
def Task.isIndexMarker : Task → Bool
  | Task.indexReachedTask _ => true
  | _ => false

/-- Python truthiness of `any(text_list)` for a list of strings: true iff
some element is a nonempty string. -/
def pyAnyStr (l : List String) : Bool :=
  l.any (fun s => !s.isEmpty)

/-- Python truthiness of `any(index_command_list)` for a list of ints: true
iff some element is nonzero. -/
def pyAnyInt (l : List Int) : Bool :=
  l.any (fun i => i != 0)

/-- The compiler's loop state in
`SynthDriver._fast_prepare_and_run_speech_task` (`__init__.py` lines
311-314): the task list built so far, the pending text fragments, the
buffered index markers, and the live tts system state. -/
structure CompileState where
  speechSeq : List Task
  textList : List String
  indexCommandList : List Int
  tts : TTSState
deriving Repr, DecidableEq

/-- The `if any(text_list): append SpeechTask; clear` block of
`_fast_prepare_and_run_speech_task` (`__init__.py` lines 323-330 and
349-355): pending fragments are joined with a newline and become one
SpeechTask with a snapshot of the live options; the fragment list is
cleared only when flushed. -/
def flushTextFast (st : CompileState) : CompileState :=
  if pyAnyStr st.textList then
    { st with
      speechSeq := st.speechSeq ++
        [Task.speechTask (st.tts.createSpeechProvider (String.intercalate "\n" st.textList))],
      textList := [] }
  else st

/-- One iteration of the directive loop of
`_fast_prepare_and_run_speech_task` (`__init__.py` lines 315-348).
`defaultLang` is the language captured before the loop (line 314);
`LangChangeCommand` with `isDefault` restores it.  Index commands and text
are buffered; every other directive first flushes pending text, then either
emits a BreakTask or mutates the live options. -/
def compileStepFast (defaultLang : String) (st : CompileState) (item : SpeechCommand) :
    Except TTSError CompileState :=
  match item with
  | SpeechCommand.index i =>
    Except.ok { st with indexCommandList := st.indexCommandList ++ [i] }
  | SpeechCommand.text s =>
    Except.ok { st with textList := st.textList ++ [s] }
  | SpeechCommand.brk t =>
    let st1 := flushTextFast st
    Except.ok { st1 with
      speechSeq := st1.speechSeq ++ [Task.breakTask (st1.tts.createBreakProvider t)] }
  | SpeechCommand.langChange lang =>
    let st1 := flushTextFast st
    match st1.tts.setLanguage (lang.getD defaultLang) with
    | Except.ok tts1 => Except.ok { st1 with tts := tts1 }
    | Except.error e => Except.error e
  | SpeechCommand.rate v =>
    let st1 := flushTextFast st
    Except.ok { st1 with tts := st1.tts.setRate v }
  | SpeechCommand.volume v =>
    let st1 := flushTextFast st
    Except.ok { st1 with tts := st1.tts.setVolume v }
  | SpeechCommand.pitch v =>
    let st1 := flushTextFast st
    Except.ok { st1 with tts := st1.tts.setPitch v }

/-- The directive loop of `_fast_prepare_and_run_speech_task`
(`__init__.py` lines 315-348), folded over the sequence.  A
`VoiceNotFoundError` from a language change propagates out of the loop as
in Python. -/
def compileFold (defaultLang : String) :
    List SpeechCommand → CompileState → Except TTSError CompileState
  | [], st => Except.ok st
  | item :: rest, st =>
    match compileStepFast defaultLang st item with
    | Except.ok st1 => compileFold defaultLang rest st1
    | Except.error e => Except.error e

/-- The epilogue of `_fast_prepare_and_run_speech_task` (`__init__.py`
lines 349-362): flush remaining text, append one IndexReachedTask with all
buffered markers when `any(index_command_list)` is truthy, then append the
terminal DoneSpeakingTask. -/
def finalizeFast (st : CompileState) : List Task × TTSState :=
  let st1 := flushTextFast st
  let seq1 :=
    if pyAnyInt st1.indexCommandList then
      st1.speechSeq ++ [Task.indexReachedTask st1.indexCommandList]
    else st1.speechSeq
  (seq1 ++ [Task.doneSpeakingTask], st1.tts)

/-- `SynthDriver._fast_prepare_and_run_speech_task` (`__init__.py` lines
309-365) as a plan compiler: from the live tts state and a directive
sequence to the compiled task plan and the post-compilation tts state.
The `self.cancel()` call and the hand-off of the plan to `process_speech`
are scheduling concerns modelled separately. -/
def fastPrepareSpeechTask (tts : TTSState) (seq : List SpeechCommand) :
    Except TTSError (List Task × TTSState) :=
  match compileFold tts.language seq { speechSeq := [], textList := [], indexCommandList := [], tts := tts } with
  | Except.ok st => Except.ok (finalizeFast st)
  | Except.error e => Except.error e

/-- `SynthDriver.speak` (`__init__.py` lines 247-249) together with
`SonataTextToSpeechSystem.create_synthesis_context` (tts_system.py lines
251-256): the live speech options are copied before compiling and restored
afterwards ("Reset speech params after each utterance").  When compilation
raises, the plain `@contextmanager` without try/finally does not restore,
so the error is propagated unchanged. -/
def speak (tts : TTSState) (seq : List SpeechCommand) :
    Except TTSError (List Task × TTSState) :=
  let oldOptions := tts.speechOptions.copy
  match fastPrepareSpeechTask tts seq with
  | Except.ok (plan, tts1) => Except.ok (plan, { tts1 with speechOptions := oldOptions })
  | Except.error e => Except.error e

/-- Result of awaiting one task's coroutine in the scheduler: normal
completion, an `asyncio` cancellation, or any other raised exception. -/
inductive TaskOutcome where
  | ok
  | cancelled
  | failed
deriving Repr, DecidableEq

/-- A log record emitted by `_process_speech_sequence` (`__init__.py` lines
144-147): `log.debug` for a cancellation, `log.exception` for any other
failure. -/
inductive LogEntry where
  | debugCancelled
  | exceptionFailure
deriving Repr, DecidableEq

/-- `_process_speech_sequence` (`__init__.py` lines 139-148), with the
effect of awaiting one task abstracted by `exec`.  Returns the list of
tasks whose execution was attempted, in order, and the log records
produced.  The `except` clause logs (debug for a cancellation, exception
otherwise) and then executes `break`, so the first non-ok task ends the
loop. -/
def processSpeechSequence (exec : Task → TaskOutcome) : List Task → List Task × List LogEntry
  | [] => ([], [])
  | t :: rest =>
    match exec t with
    | TaskOutcome.ok =>
      let r := processSpeechSequence exec rest
      (t :: r.1, r.2)
    | TaskOutcome.cancelled => ([t], [LogEntry.debugCancelled])
    | TaskOutcome.failed => ([t], [LogEntry.exceptionFailure])

/-- Host environment of one `start_grpc_server` call
(grpc_client/`__init__.py` lines 30-74): the ephemeral port
`find_free_port` would return, and the result of `subprocess.Popen`
(`none` models a raised launch exception, `some pid` a launched process). -/
structure LaunchEnv where
  freshPort : Nat
  popenResult : Option Nat
deriving Repr, DecidableEq

/-- Mutable state read and written by `start_grpc_server`: the
`globalVars.SONATA_GRPC_SERVER_PORT` / `globalVars.GRPC_SERVER_PROCESS`
pair (set together on a successful launch, so one `Option` of the pair
models the `hasattr` check), the module-level `SONATA_GRPC_SERVER_PORT`
and `GRPC_SERVER_PROCESS` globals, and the set of launched engine
processes still alive. -/
structure EngineGlobals where
  recorded : Option (Nat × Nat)
  modulePort : Option Nat
  moduleProcess : Option Nat
  liveProcesses : List Nat
deriving Repr, DecidableEq

/-- Result of one `start_grpc_server` call: the updated globals, the
boolean return value, and how many new engine processes the call
launched. -/
structure StartResult where
  globals : EngineGlobals
  retval : Bool
  launched : Nat
deriving Repr, DecidableEq

/-- `start_grpc_server` (grpc_client/`__init__.py` lines 30-74).  When the
port is already recorded on `globalVars`, the module globals are set from
it and the call returns `True` without launching anything.  Otherwise a
free port is picked and the engine launched; on `Popen` failure the module
port has already been assigned but nothing is recorded and the call
returns `False`; on success port and process are recorded on `globalVars`
and the call returns `True`. -/
def startGrpcServer (env : LaunchEnv) (g : EngineGlobals) : StartResult :=
  match g.recorded with
  | some pp =>
    { globals := { g with modulePort := some pp.1, moduleProcess := some pp.2 },
      retval := true, launched := 0 }
  | none =>
    let port := env.freshPort
    match env.popenResult with
    | none =>
      { globals := { g with modulePort := some port }, retval := false, launched := 0 }
    | some proc =>
      { globals :=
          { recorded := some (port, proc), modulePort := some port,
            moduleProcess := some proc, liveProcesses := g.liveProcesses ++ [proc] },
        retval := true, launched := 1 }

/-- A voice entry as produced by `SonataVoice.from_path` (tts_system.py
lines 82-97) during registry enumeration, before `load()`. -/
structure VoiceEntry where
  key : String
  name : String
  language : String
  quality : String
deriving Repr, DecidableEq

/-- `SonataVoice.from_path` (tts_system.py lines 82-97): the directory name
is the key and must unpack as `lang, name, quality = key.split("-")`,
i.e. split on "-" into exactly three parts; otherwise Python raises
`ValueError`, modelled as `none`. -/
def VoiceEntry.fromPath (dirName : String) : Option VoiceEntry :=
  match pySplitDash dirName with
  | [lang, name, quality] =>
    some { key := dirName, name := name, language := normalizeLanguage lang,
           quality := quality.toLower }
  | _ => none

/-- `SonataTextToSpeechSystem.load_voices_from_directory` (tts_system.py
lines 380-391), over the list of subdirectory names: directories whose
names raise `ValueError` in `from_path` are skipped with `continue`. -/
def loadVoicesFromDirectory (dirs : List String) : List VoiceEntry :=
  dirs.filterMap VoiceEntry.fromPath

/-- The comparison used by `sorted(..., key=operator.attrgetter("key"))`:
lexicographic order on the voice key. -/
def voiceKeyLe (a b : VoiceEntry) : Bool :=
  decide (a.key ≤ b.key)

/-- `SonataTextToSpeechSystem.load_piper_voices_from_nvda_config_dir`
(tts_system.py lines 372-378): enumerate the voices directory and sort
the result by key (Python `sorted` is a stable merge sort). -/
def loadPiperVoicesFromConfigDir (dirs : List String) : List VoiceEntry :=
  (loadVoicesFromDirectory dirs).mergeSort voiceKeyLe

/-- `IGNORED_PUNCS` (const.py line 25): the frozen set of the ten
characters of the Python literal; comma, parentheses, braces, square
brackets, backtick, double quote and single quote, the last four written
via their code points. -/
def IGNORED_PUNCS : List Char :=
  [',', '(', ')', Char.ofNat 123, Char.ofNat 125, '[', ']',
   Char.ofNat 96, Char.ofNat 34, Char.ofNat 39]

/-- Python `str.strip()` with no argument: remove leading and trailing
whitespace, written over the character list so that it evaluates inside
the kernel.  `Char.isWhitespace` covers the ASCII whitespace characters;
Python additionally strips non-ASCII Unicode whitespace, which none of the
claims exercise. -/
def pyStrip (s : String) : String :=
  String.mk (((s.toList.dropWhile Char.isWhitespace).reverse.dropWhile
    Char.isWhitespace).reverse)

/-- The guard of `SonataVoice.synthesize` (tts_system.py line 186):
`len(text) < 10 and set(text.strip()).issubset(IGNORED_PUNCS)`. -/
def isIgnoredUtterance (text : String) : Bool :=
  decide (text.length < 10) && (pyStrip text).toList.all (fun c => IGNORED_PUNCS.contains c)

/-- `SonataVoice.synthesize` (tts_system.py lines 185-198) as a function of
the text and of the chunk stream the engine would return for it: when the
guard fires the generator returns before contacting the engine and yields
nothing; otherwise every engine chunk is yielded.  The rate/volume/pitch
and trailing-silence arguments only parameterize the engine call and are
absorbed into `engineChunks`. -/
def SonataVoice.synthesize (text : String) (engineChunks : List (List Nat)) : List (List Nat) :=
  if isIgnoredUtterance text then [] else engineChunks

/-- Indices contributed to `index_command_list` by one directive: an
`IndexCommand` appends its index, every other directive appends nothing. -/
def cmdIndices : SpeechCommand → List Int
  | SpeechCommand.index i => [i]
  | _ => []

/-- All index values of a directive sequence, in order. -/
def seqIndices : List SpeechCommand → List Int
  | [] => []
  | c :: rest => cmdIndices c ++ seqIndices rest

/-- Whether a directive is a parameter change (rate, volume, pitch or
language), i.e. one that is applied to the live options and never rendered
as audio. -/
def isParamChange : SpeechCommand → Bool
  | SpeechCommand.rate _ => true
  | SpeechCommand.volume _ => true
  | SpeechCommand.pitch _ => true
  | SpeechCommand.langChange _ => true
  | _ => false

/-- Decidable check that no index-marker task is immediately followed by an
audio-producing task anywhere in a plan. -/
def noMarkerImmediatelyBeforeAudio : List Task → Bool
  | [] => true
  | [_] => true
  | a :: b :: rest =>
    !(a.isIndexMarker && b.isAudio) && noMarkerImmediatelyBeforeAudio (b :: rest)

/-- A concrete loaded voice used to evaluate the theorems on explicit
inputs: a 22050 Hz single-speaker voice. -/
def testVoice : SonataVoice :=
  { key := "en_US-lessac-medium", name := "lessac", language := "en-us", sampleRate := 22050 }

/-- Fresh speech options for `testVoice`, as built by
`SpeechOptions(voice=configured_voice)`: rate, volume, pitch and sentence
silence all unset. -/
def testOptions : SpeechOptions :=
  { voice := testVoice, rate := none, volume := none, pitch := none, sentenceSilenceMs := none }

/-- A concrete tts system state holding only `testVoice`. -/
def tts0 : TTSState :=
  { voices := [testVoice], speechOptions := testOptions }

/-- The plan the compiler produces for the directive sequence
`[IndexCommand(1), "a"]` from `tts0`. -/
def indexPlacementPlan : List Task :=
  [Task.speechTask { text := "a", speechOptions := testOptions },
   Task.indexReachedTask [1], Task.doneSpeakingTask]

/-- A task-execution behaviour under which every audio task raises an
ordinary exception and every other task completes normally. -/
def execAudioFails (t : Task) : TaskOutcome :=
  if t.isAudio then TaskOutcome.failed else TaskOutcome.ok

/-- Joining two fragments: `"\n".join([a, b])` is `a ++ "\n" ++ b`. -/
theorem intercalate_pair (sep a b : String) : String.intercalate sep [a, b] = a ++ sep ++ b := rfl

/-- A nonempty string is not `isEmpty`. -/
theorem isEmpty_false_of_ne (s : String) (h : s ≠ "") : s.isEmpty = false := by
  cases hb : s.isEmpty
  · rfl
  · exact absurd ((String.isEmpty_iff s).mp hb) h

/-- `setLanguage` never changes the installed-voices list. -/
theorem setLanguage_voices (st : TTSState) (lang : String) (st1 : TTSState)
    (h : st.setLanguage lang = Except.ok st1) : st1.voices = st.voices := by
  unfold TTSState.setLanguage at h
  simp only at h
  split at h
  · exact (Except.ok.injEq ..).mp h ▸ rfl
  · split at h
    · cases h; rfl
    · split at h
      · cases h; rfl
      · cases h

/-- Effects of one text flush: it appends only audio tasks to the plan and
leaves the marker buffer and the tts state unchanged. -/
theorem flushTextFast_effects (st : CompileState) :
    (∃ delta, (flushTextFast st).speechSeq = st.speechSeq ++ delta ∧
      ∀ t ∈ delta, t.isAudio = true)
    ∧ (flushTextFast st).indexCommandList = st.indexCommandList
    ∧ (flushTextFast st).tts = st.tts := by
  unfold flushTextFast
  split
  · exact ⟨⟨[Task.speechTask (st.tts.createSpeechProvider (String.intercalate "\n" st.textList))],
      rfl, by intro t ht; simp at ht; subst ht; rfl⟩, rfl, rfl⟩
  · exact ⟨⟨[], by simp, by simp⟩, rfl, rfl⟩

/-- Effects of one compiler step: the plan only grows, and only by audio
tasks; the marker buffer grows exactly by the directive's indices; the
voices list is untouched. -/
theorem compileStepFast_effects (dl : String) (st : CompileState) (item : SpeechCommand)
    (st1 : CompileState) (h : compileStepFast dl st item = Except.ok st1) :
    (∃ delta, st1.speechSeq = st.speechSeq ++ delta ∧ ∀ t ∈ delta, t.isAudio = true)
    ∧ st1.indexCommandList = st.indexCommandList ++ cmdIndices item
    ∧ st1.tts.voices = st.tts.voices := by
  obtain ⟨⟨fdelta, hfseq, hfaudio⟩, hfidx, hftts⟩ := flushTextFast_effects st
  cases item with
  | index i =>
    cases h
    exact ⟨⟨[], by simp, by simp⟩, rfl, rfl⟩
  | text s =>
    cases h
    exact ⟨⟨[], by simp, by simp⟩, by simp [cmdIndices], rfl⟩
  | brk t =>
    cases h
    refine ⟨⟨fdelta ++ [Task.breakTask ((flushTextFast st).tts.createBreakProvider t)], ?_, ?_⟩,
      ?_, ?_⟩
    · simp [hfseq]
    · intro u hu
      rcases List.mem_append.mp hu with hu | hu
      · exact hfaudio u hu
      · simp at hu; subst hu; rfl
    · simp [hfidx, cmdIndices]
    · simp [hftts]
  | langChange lang =>
    simp only [compileStepFast] at h
    split at h
    · cases h
      rename_i tts1 hset
      refine ⟨⟨fdelta, hfseq, hfaudio⟩, by simp [hfidx, cmdIndices], ?_⟩
      have := setLanguage_voices (flushTextFast st).tts ((lang.getD dl)) tts1 hset
      simp only [this, hftts]
    · cases h
  | rate v =>
    cases h
    exact ⟨⟨fdelta, hfseq, hfaudio⟩, by simp [hfidx, cmdIndices],
      by simp [TTSState.setRate, hftts]⟩
  | volume v =>
    cases h
    exact ⟨⟨fdelta, hfseq, hfaudio⟩, by simp [hfidx, cmdIndices],
      by simp [TTSState.setVolume, hftts]⟩
  | pitch v =>
    cases h
    exact ⟨⟨fdelta, hfseq, hfaudio⟩, by simp [hfidx, cmdIndices],
      by simp [TTSState.setPitch, hftts]⟩

/-- Effects of the whole directive loop, by induction on the sequence. -/
theorem compileFold_effects (dl : String) (items : List SpeechCommand) (st st1 : CompileState)
    (h : compileFold dl items st = Except.ok st1) :
    (∃ delta, st1.speechSeq = st.speechSeq ++ delta ∧ ∀ t ∈ delta, t.isAudio = true)
    ∧ st1.indexCommandList = st.indexCommandList ++ seqIndices items
    ∧ st1.tts.voices = st.tts.voices := by
  induction items generalizing st with
  | nil =>
    cases h
    exact ⟨⟨[], by simp, by simp⟩, by simp [seqIndices], rfl⟩
  | cons c rest ih =>
    unfold compileFold at h
    split at h
    · rename_i stmid hstep
      obtain ⟨⟨d1, hseq1, haud1⟩, hidx1, hvoices1⟩ := compileStepFast_effects dl st c stmid hstep
      obtain ⟨⟨d2, hseq2, haud2⟩, hidx2, hvoices2⟩ := ih stmid h
      refine ⟨⟨d1 ++ d2, ?_, ?_⟩, ?_, ?_⟩
      · simp [hseq2, hseq1]
      · intro u hu
        rcases List.mem_append.mp hu with hu | hu
        · exact haud1 u hu
        · exact haud2 u hu
      · simp [hidx2, hidx1, seqIndices]
      · simp [hvoices2, hvoices1]
    · cases h

/-- Shape of every successfully compiled plan: a block of audio tasks,
then one IndexReachedTask holding all buffered markers when the buffer is
truthy, then the terminal DoneSpeakingTask; the voices list survives
compilation unchanged. -/
theorem fastPrepare_shape (tts : TTSState) (seq : List SpeechCommand)
    (plan : List Task) (tts1 : TTSState)
    (h : fastPrepareSpeechTask tts seq = Except.ok (plan, tts1)) :
    (∃ body, ((pyAnyInt (seqIndices seq) = true ∧
        plan = body ++ [Task.indexReachedTask (seqIndices seq), Task.doneSpeakingTask]) ∨
      (pyAnyInt (seqIndices seq) = false ∧ plan = body ++ [Task.doneSpeakingTask]))
      ∧ ∀ t ∈ body, t.isAudio = true)
    ∧ tts1.voices = tts.voices := by
  unfold fastPrepareSpeechTask at h
  split at h
  · rename_i stend hfold
    obtain ⟨⟨d1, hseq1, haud1⟩, hidx1, hvoices1⟩ :=
      compileFold_effects tts.language seq
        { speechSeq := [], textList := [], indexCommandList := [], tts := tts } stend hfold
    obtain ⟨⟨d2, hseq2, haud2⟩, hidx2, httseq⟩ := flushTextFast_effects stend
    simp only at hseq1 hidx1 hvoices1
    cases h
    constructor
    · refine ⟨(flushTextFast stend).speechSeq, ?_, ?_⟩
      · rw [hidx2, hidx1]
        simp only [List.nil_append]
        by_cases hp : pyAnyInt (seqIndices seq)
        · left
          exact ⟨hp, by simp [hp]⟩
        · right
          simp only [Bool.not_eq_true] at hp
          exact ⟨hp, by simp [hp]⟩
      · intro t ht
        rw [hseq2, hseq1] at ht
        simp only [List.nil_append] at ht
        rcases List.mem_append.mp ht with ht | ht
        · exact haud1 t ht
        · exact haud2 t ht
    · rw [httseq, hvoices1]
  · cases h

/-- When a state with empty buffers and empty plan is fed only
parameter-change directives, the buffers and the plan stay empty. -/
theorem compileFold_paramOnly (dl : String) (items : List SpeechCommand)
    (st st1 : CompileState) (hp : ∀ c ∈ items, isParamChange c = true)
    (hseq : st.speechSeq = []) (htext : st.textList = []) (hidx : st.indexCommandList = [])
    (h : compileFold dl items st = Except.ok st1) :
    st1.speechSeq = [] ∧ st1.textList = [] ∧ st1.indexCommandList = [] := by
  induction items generalizing st with
  | nil =>
    cases h
    exact ⟨hseq, htext, hidx⟩
  | cons c rest ih =>
    unfold compileFold at h
    split at h
    · rename_i stmid hstep
      have hflush : flushTextFast st = st := by
        unfold flushTextFast
        rw [htext]
        rfl
      have hc := hp c (List.mem_cons_self c rest)
      have hmid : stmid.speechSeq = [] ∧ stmid.textList = [] ∧ stmid.indexCommandList = [] := by
        cases c with
        | rate v =>
          cases hstep
          simp only [hflush]
          exact ⟨hseq, htext, hidx⟩
        | volume v =>
          cases hstep
          simp only [hflush]
          exact ⟨hseq, htext, hidx⟩
        | pitch v =>
          cases hstep
          simp only [hflush]
          exact ⟨hseq, htext, hidx⟩
        | langChange lang =>
          simp only [compileStepFast, hflush] at hstep
          split at hstep
          · cases hstep
            exact ⟨hseq, htext, hidx⟩
          · cases hstep
        | text s => simp [isParamChange] at hc
        | index i => simp [isParamChange] at hc
        | brk t => simp [isParamChange] at hc
      exact ih stmid (fun u hu => hp u (List.mem_cons_of_mem c hu)) hmid.1 hmid.2.1 hmid.2.2 h
    · cases h

/-- C7: every successfully compiled plan ends in a DoneSpeakingTask; an
empty directive sequence compiles to a plan holding only the
DoneSpeakingTask, and so does any sequence of parameter-change directives
(rate, volume, pitch, language) that compiles successfully. -/
theorem fast_plan_terminal_done :
    (∀ tts seq plan tts1, fastPrepareSpeechTask tts seq = Except.ok (plan, tts1) →
      plan.getLast? = some Task.doneSpeakingTask)
    ∧ (∀ tts, fastPrepareSpeechTask tts [] = Except.ok ([Task.doneSpeakingTask], tts))
    ∧ (∀ tts seq plan tts1, (∀ c ∈ seq, isParamChange c = true) →
      fastPrepareSpeechTask tts seq = Except.ok (plan, tts1) →
      plan = [Task.doneSpeakingTask]) := by
  refine ⟨?_, ?_, ?_⟩
  · intro tts seq plan tts1 h
    obtain ⟨⟨body, hbody, _⟩, _⟩ := fastPrepare_shape tts seq plan tts1 h
    rcases hbody with ⟨_, hplan⟩ | ⟨_, hplan⟩
    · subst hplan
      rw [show body ++ [Task.indexReachedTask (seqIndices seq), Task.doneSpeakingTask] =
        (body ++ [Task.indexReachedTask (seqIndices seq)]) ++ [Task.doneSpeakingTask] by simp]
      exact List.getLast?_concat _
    · subst hplan
      exact List.getLast?_concat _
  · intro tts
    rfl
  · intro tts seq plan tts1 hp h
    unfold fastPrepareSpeechTask at h
    split at h
    · rename_i stend hfold
      obtain ⟨h1, h2, h3⟩ := compileFold_paramOnly tts.language seq _ stend hp rfl rfl rfl hfold
      have hflush : flushTextFast stend = stend := by
        unfold flushTextFast
        rw [h2]
        rfl
      cases h
      simp [finalizeFast, hflush, h1, h3, pyAnyInt]
    · cases h

/-- Witness for `fast_plan_terminal_done` at the concrete state `tts0` and
the parameter-only sequence `[PitchCommand(10)]`. -/
theorem fast_plan_terminal_done_witness :
    fastPrepareSpeechTask tts0 [SpeechCommand.pitch 10] =
      Except.ok ([Task.doneSpeakingTask], tts0.setPitch 10)
    ∧ ([Task.doneSpeakingTask] : List Task) = [Task.doneSpeakingTask] :=
  ⟨rfl, fast_plan_terminal_done.2.2 tts0 [SpeechCommand.pitch 10] [Task.doneSpeakingTask]
    (tts0.setPitch 10) (by decide) rfl⟩

/-- C2 counterexample: for the directive sequence `[IndexCommand(1), "a"]`
the compiled plan places the IndexReachedTask after the SpeechTask, not
immediately before it: the plan contains an index-marker task and an
audio-producing task, yet no index-marker task stands immediately before
any audio-producing task. -/
theorem index_placement_counterexample :
    fastPrepareSpeechTask tts0 [SpeechCommand.index 1, SpeechCommand.text "a"] =
      Except.ok (indexPlacementPlan, tts0)
    ∧ indexPlacementPlan.any Task.isIndexMarker = true
    ∧ indexPlacementPlan.any Task.isAudio = true
    ∧ noMarkerImmediatelyBeforeAudio indexPlacementPlan = true :=
  ⟨rfl, rfl, rfl, rfl⟩

/-- C2 amended: index markers are buffered across the whole directive
sequence; when the buffer is truthy (some marker is nonzero) all buffered
markers are flushed as one IndexReachedTask placed after every
audio-producing task, immediately before the terminal DoneSpeakingTask;
when the buffer is not truthy no IndexReachedTask is emitted at all. -/
theorem index_placement_amended (tts : TTSState) (seq : List SpeechCommand)
    (plan : List Task) (tts1 : TTSState)
    (h : fastPrepareSpeechTask tts seq = Except.ok (plan, tts1)) :
    (pyAnyInt (seqIndices seq) = true →
      plan.getLast? = some Task.doneSpeakingTask ∧
      plan.dropLast.getLast? = some (Task.indexReachedTask (seqIndices seq)) ∧
      ∀ t ∈ plan.dropLast.dropLast, t.isAudio = true)
    ∧ (pyAnyInt (seqIndices seq) = false →
      plan.getLast? = some Task.doneSpeakingTask ∧
      ∀ t ∈ plan.dropLast, t.isAudio = true) := by
  obtain ⟨⟨body, hbody, haudio⟩, _⟩ := fastPrepare_shape tts seq plan tts1 h
  rcases hbody with ⟨hp, hplan⟩ | ⟨hp, hplan⟩
  · refine ⟨fun _ => ?_, fun hfalse => Bool.noConfusion (hfalse ▸ hp)⟩
    subst hplan
    have hsplit : body ++ [Task.indexReachedTask (seqIndices seq), Task.doneSpeakingTask] =
        (body ++ [Task.indexReachedTask (seqIndices seq)]) ++ [Task.doneSpeakingTask] := by
      simp
    refine ⟨?_, ?_, ?_⟩
    · rw [hsplit]
      exact List.getLast?_concat _
    · rw [hsplit, List.dropLast_concat]
      exact List.getLast?_concat _
    · rw [hsplit, List.dropLast_concat, List.dropLast_concat]
      exact haudio
  · refine ⟨fun htrue => Bool.noConfusion (htrue ▸ hp), fun _ => ?_⟩
    subst hplan
    refine ⟨List.getLast?_concat _, ?_⟩
    rw [List.dropLast_concat]
    exact haudio

/-- Witness for `index_placement_amended` at the sequence
`[IndexCommand(1), "a"]` compiled from `tts0`. -/
theorem index_placement_amended_witness :
    pyAnyInt (seqIndices [SpeechCommand.index 1, SpeechCommand.text "a"]) = true
    ∧ indexPlacementPlan.dropLast.getLast? = some (Task.indexReachedTask [1]) :=
  ⟨rfl, ((index_placement_amended tts0 [SpeechCommand.index 1, SpeechCommand.text "a"]
    indexPlacementPlan tts0 rfl).1 rfl).2.1⟩

/-- C1 counterexample: the adjacent text directives "Hello " and "world"
compile to a single SpeechTask, but its text is the fragments joined with
a newline, "Hello \nworld", not the plain concatenation "Hello world". -/
theorem coalescing_counterexample :
    fastPrepareSpeechTask tts0 [SpeechCommand.text "Hello ", SpeechCommand.text "world"] =
      Except.ok ([Task.speechTask { text := "Hello \nworld", speechOptions := testOptions },
        Task.doneSpeakingTask], tts0)
    ∧ ("Hello \nworld" : String) ≠ "Hello world" :=
  ⟨rfl, by decide⟩

/-- Joining one fragment: `"\n".join([a])` is `a`. -/
theorem intercalate_singleton (sep a : String) : String.intercalate sep [a] = a := rfl

/-- C1 amended: two adjacent text directives compile to one SpeechTask
whose text is the fragments joined with a newline separator (so "Hello "
and "world" give "Hello \nworld"), while a text directive followed by a
break directive compiles to two separate tasks. -/
theorem coalescing_amended (tts : TTSState) (s1 s2 : String) (t : Int) (h1 : s1 ≠ "") :
    fastPrepareSpeechTask tts [SpeechCommand.text s1, SpeechCommand.text s2] =
      Except.ok ([Task.speechTask { text := s1 ++ "\n" ++ s2, speechOptions := tts.speechOptions },
        Task.doneSpeakingTask], tts)
    ∧ fastPrepareSpeechTask tts [SpeechCommand.text s1, SpeechCommand.brk t] =
      Except.ok ([Task.speechTask { text := s1, speechOptions := tts.speechOptions },
        Task.breakTask { timeMs := t, sampleRate := tts.speechOptions.voice.sampleRate },
        Task.doneSpeakingTask], tts) := by
  have hs1 : s1.isEmpty = false := isEmpty_false_of_ne s1 h1
  constructor
  · simp [fastPrepareSpeechTask, compileFold, compileStepFast, finalizeFast, flushTextFast,
      pyAnyStr, pyAnyInt, hs1, TTSState.createSpeechProvider, SpeechOptions.copy,
      intercalate_pair]
  · simp [fastPrepareSpeechTask, compileFold, compileStepFast, finalizeFast, flushTextFast,
      pyAnyStr, pyAnyInt, hs1, TTSState.createSpeechProvider, TTSState.createBreakProvider,
      SpeechOptions.copy, intercalate_singleton]

/-- Witness for `coalescing_amended` at the concrete fragments of the
claim. -/
theorem coalescing_amended_witness :
    fastPrepareSpeechTask tts0 [SpeechCommand.text "Hello ", SpeechCommand.text "world"] =
      Except.ok ([Task.speechTask { text := "Hello \nworld", speechOptions := testOptions },
        Task.doneSpeakingTask], tts0) :=
  (coalescing_amended tts0 "Hello " "world" 300 (by decide)).1

/-- Whatever `speak` compiles, the session state it returns is the state it
started from: `create_synthesis_context` restores the copied speech
options, and compilation never touches the voices list. -/
theorem speak_restores_state (tts : TTSState) (seq : List SpeechCommand)
    (out : List Task × TTSState) (h : speak tts seq = Except.ok out) : out.2 = tts := by
  unfold speak at h
  split at h
  · rename_i plan tts1 hfast
    cases h
    obtain ⟨_, hvoices⟩ := fastPrepare_shape tts seq plan tts1 hfast
    show ({ tts1 with speechOptions := tts.speechOptions.copy } : TTSState) = tts
    cases tts
    simp only [SpeechOptions.copy] at hvoices ⊢
    simp [TTSState.mk.injEq, hvoices]
  · cases h

/-- C4 counterexample: for `speak` on `[RateCommand(80), "fast speech"]`
from `tts0` (session rate unset), the compiled SpeechTask's snapshot does
have rate 80, but the session state returned by `speak` is `tts0` itself;
a subsequent independent `speak` of `["hi"]` from that state produces a
snapshot whose rate is the original unset value, not 80, because
`create_synthesis_context` resets the speech options after each
utterance. -/
theorem session_rate_counterexample :
    speak tts0 [SpeechCommand.rate 80, SpeechCommand.text "fast speech"] =
      Except.ok ([Task.speechTask ⟨"fast speech", { testOptions with rate := some 80 }⟩,
        Task.doneSpeakingTask], tts0)
    ∧ speak tts0 [SpeechCommand.text "hi"] =
      Except.ok ([Task.speechTask { text := "hi", speechOptions := testOptions },
        Task.doneSpeakingTask], tts0)
    ∧ testOptions.rate ≠ some 80 :=
  ⟨rfl, rfl, by decide⟩

/-- C4 amended: for `[RateChange(80), text]` the compiled SpeechTask's
snapshot has rate 80, but the rate change is not session-sticky: `speak`
restores the pre-utterance speech options when the plan is compiled, so a
subsequent independently compiled plan sees the pre-utterance session
state unless the rate is set again. -/
theorem session_rate_amended (tts : TTSState) (s : String) (hs : s ≠ "") :
    speak tts [SpeechCommand.rate 80, SpeechCommand.text s] =
      Except.ok ([Task.speechTask ⟨s, { tts.speechOptions with rate := some 80 }⟩,
        Task.doneSpeakingTask], tts)
    ∧ ∀ seq out, speak tts seq = Except.ok out → out.2 = tts := by
  have hs1 : s.isEmpty = false := isEmpty_false_of_ne s hs
  constructor
  · simp [speak, fastPrepareSpeechTask, compileFold, compileStepFast, finalizeFast,
      flushTextFast, pyAnyStr, pyAnyInt, hs1, TTSState.createSpeechProvider,
      SpeechOptions.copy, TTSState.setRate, intercalate_singleton]
  · exact fun seq out h => speak_restores_state tts seq out h

/-- Witness for `session_rate_amended` at `tts0` and the claim's text. -/
theorem session_rate_amended_witness :
    speak tts0 [SpeechCommand.rate 80, SpeechCommand.text "fast speech"] =
      Except.ok ([Task.speechTask ⟨"fast speech", { testOptions with rate := some 80 }⟩,
        Task.doneSpeakingTask], tts0) :=
  (session_rate_amended tts0 "fast speech" (by decide)).1

/-- C5: a rate-change directive between two text directives affects only
the snapshot of the SpeechTask compiled after it — the earlier SpeechTask
carries the pre-change options, the later one the post-change options —
and compilation only ever appends to the emitted plan, so an
already-emitted task is never altered by a later directive. -/
theorem snapshot_isolation (tts : TTSState) (s1 s2 : String) (v : Int)
    (h1 : s1 ≠ "") (h2 : s2 ≠ "") :
    fastPrepareSpeechTask tts [SpeechCommand.text s1, SpeechCommand.rate v, SpeechCommand.text s2] =
      Except.ok ([Task.speechTask { text := s1, speechOptions := tts.speechOptions },
        Task.speechTask { text := s2, speechOptions := { tts.speechOptions with rate := some v } },
        Task.doneSpeakingTask], tts.setRate v)
    ∧ ∀ dl items st st1, compileFold dl items st = Except.ok st1 →
      ∃ delta, st1.speechSeq = st.speechSeq ++ delta := by
  have hs1 : s1.isEmpty = false := isEmpty_false_of_ne s1 h1
  have hs2 : s2.isEmpty = false := isEmpty_false_of_ne s2 h2
  constructor
  · simp [fastPrepareSpeechTask, compileFold, compileStepFast, finalizeFast, flushTextFast,
      pyAnyStr, pyAnyInt, hs1, hs2, TTSState.createSpeechProvider, SpeechOptions.copy,
      TTSState.setRate, intercalate_singleton]
  · intro dl items st st1 h
    obtain ⟨⟨delta, hd, _⟩, _, _⟩ := compileFold_effects dl items st st1 h
    exact ⟨delta, hd⟩

/-- Witness for `snapshot_isolation` at `tts0` with concrete fragments and
rate 80. -/
theorem snapshot_isolation_witness :
    fastPrepareSpeechTask tts0
      [SpeechCommand.text "slow", SpeechCommand.rate 80, SpeechCommand.text "quick"] =
      Except.ok ([Task.speechTask { text := "slow", speechOptions := testOptions },
        Task.speechTask { text := "quick", speechOptions := { testOptions with rate := some 80 } },
        Task.doneSpeakingTask], tts0.setRate 80) :=
  (snapshot_isolation tts0 "slow" "quick" 80 (by decide) (by decide)).1

/-- C6: a Break directive for 300 ms on a 22050 Hz voice compiles to a
BreakTask for 300 ms at 22050 Hz, and that task's generated audio is
exactly `int((300/1000) * 22050) = 6615` sample frames of 16-bit zeroes,
i.e. `6615 * 2` zero bytes. -/
theorem break_silence_size (tts : TTSState) (h : tts.speechOptions.voice.sampleRate = 22050) :
    fastPrepareSpeechTask tts [SpeechCommand.brk 300] =
      Except.ok ([Task.breakTask { timeMs := 300, sampleRate := 22050 },
        Task.doneSpeakingTask], tts)
    ∧ SilenceProvider.generate_audio { timeMs := 300, sampleRate := 22050 } =
      List.replicate (6615 * 2) 0
    ∧ (6615 : Int) = Int.tdiv (300 * 22050) 1000 := by
  refine ⟨?_, rfl, by decide⟩
  simp [fastPrepareSpeechTask, compileFold, compileStepFast, finalizeFast, flushTextFast,
    pyAnyStr, pyAnyInt, TTSState.createBreakProvider, h]

/-- Witness for `break_silence_size` at the 22050 Hz state `tts0`. -/
theorem break_silence_size_witness :
    fastPrepareSpeechTask tts0 [SpeechCommand.brk 300] =
      Except.ok ([Task.breakTask { timeMs := 300, sampleRate := 22050 },
        Task.doneSpeakingTask], tts0) :=
  (break_silence_size tts0 (by decide)).1

/-- C3 counterexample: a plan of two tasks in which the first raises an
ordinary exception.  The scheduler logs the failure and stops: only the
first task is attempted and the second task of the same plan is never
executed, contradicting the claim that it proceeds to the next task. -/
theorem task_failure_counterexample :
    processSpeechSequence execAudioFails
      [Task.breakTask { timeMs := 1, sampleRate := 22050 }, Task.doneSpeakingTask] =
      ([Task.breakTask { timeMs := 1, sampleRate := 22050 }], [LogEntry.exceptionFailure])
    ∧ Task.doneSpeakingTask ∉ [Task.breakTask { timeMs := 1, sampleRate := 22050 }] :=
  ⟨rfl, by decide⟩

/-- C3 amended: if executing one task of a plan raises, the scheduler logs
it — at debug level for a cancellation rather than as a failure — and then
aborts the remainder of the plan (the loop breaks), so tasks after the
failing one are not executed. -/
theorem task_failure_amended (exec : Task → TaskOutcome) (pre post : List Task) (t : Task)
    (hpre : ∀ u ∈ pre, exec u = TaskOutcome.ok) :
    (exec t = TaskOutcome.failed →
      processSpeechSequence exec (pre ++ t :: post) = (pre ++ [t], [LogEntry.exceptionFailure]))
    ∧ (exec t = TaskOutcome.cancelled →
      processSpeechSequence exec (pre ++ t :: post) = (pre ++ [t], [LogEntry.debugCancelled])) := by
  induction pre with
  | nil =>
    refine ⟨fun hf => ?_, fun hc => ?_⟩
    · simp [processSpeechSequence, hf]
    · simp [processSpeechSequence, hc]
  | cons u rest ih =>
    have hu : exec u = TaskOutcome.ok := hpre u (List.mem_cons_self u rest)
    obtain ⟨ih1, ih2⟩ := ih (fun w hw => hpre w (List.mem_cons_of_mem u hw))
    refine ⟨fun hf => ?_, fun hc => ?_⟩
    · simp [processSpeechSequence, hu, ih1 hf]
    · simp [processSpeechSequence, hu, ih2 hc]

/-- Witness for `task_failure_amended`: a failing first task with one task
after it. -/
theorem task_failure_amended_witness :
    execAudioFails (Task.breakTask { timeMs := 1, sampleRate := 22050 }) = TaskOutcome.failed
    ∧ processSpeechSequence execAudioFails
        ([] ++ Task.breakTask { timeMs := 1, sampleRate := 22050 } :: [Task.doneSpeakingTask]) =
      ([] ++ [Task.breakTask { timeMs := 1, sampleRate := 22050 }], [LogEntry.exceptionFailure]) :=
  ⟨rfl, (task_failure_amended execAudioFails [] [Task.doneSpeakingTask]
    (Task.breakTask { timeMs := 1, sampleRate := 22050 })
    (fun u hu => absurd hu (List.not_mem_nil u))).1 rfl⟩

/-- C8: starting from a state with nothing recorded and no live engine
process, a first successful `start_grpc_server` launches exactly one
process and returns success; a second call without an intervening
terminate observes the recorded port and process handle, launches nothing
new, leaves the globals exactly as they were (so exactly one engine
process is live), and reports success. -/
theorem supervisor_start_idempotent (env1 env2 : LaunchEnv) (g0 : EngineGlobals) (p : Nat)
    (h0 : g0.recorded = none) (hlive : g0.liveProcesses = []) (hp : env1.popenResult = some p) :
    (startGrpcServer env1 g0).retval = true
    ∧ (startGrpcServer env1 g0).launched = 1
    ∧ (startGrpcServer env1 g0).globals.liveProcesses = [p]
    ∧ startGrpcServer env2 (startGrpcServer env1 g0).globals =
      { globals := (startGrpcServer env1 g0).globals, retval := true, launched := 0 } := by
  simp [startGrpcServer, h0, hp, hlive]

/-- Witness for `supervisor_start_idempotent` at concrete ports and
process handles. -/
theorem supervisor_start_idempotent_witness :
    (startGrpcServer { freshPort := 5000, popenResult := some 42 }
      { recorded := none, modulePort := none, moduleProcess := none,
        liveProcesses := [] }).globals.liveProcesses = [42] :=
  (supervisor_start_idempotent { freshPort := 5000, popenResult := some 42 }
    { freshPort := 5001, popenResult := some 43 }
    { recorded := none, modulePort := none, moduleProcess := none, liveProcesses := [] }
    42 rfl rfl rfl).2.2.1

/-- A directory name yields a voice entry exactly when it splits on "-"
into three parts; otherwise `from_path` raises and the directory is
skipped. -/
theorem fromPath_eq_none (dirName : String) (h : (pySplitDash dirName).length ≠ 3) :
    VoiceEntry.fromPath dirName = none := by
  unfold VoiceEntry.fromPath
  split
  · rename_i lang name quality heq
    exact absurd (by rw [heq]; rfl) h
  · rfl

/-- C9: registry enumeration silently skips a directory whose name does
not split into the language-name-quality pattern (the result is as if the
directory were absent, and no error is raised since enumeration is total);
the registry returns the surviving voices sorted by key, and the sorted
result is a permutation of the enumerated voices. -/
theorem voice_registry_enumeration (pre post dirs : List String) (bad : String)
    (hbad : (pySplitDash bad).length ≠ 3) :
    loadVoicesFromDirectory (pre ++ bad :: post) = loadVoicesFromDirectory (pre ++ post)
    ∧ List.Sorted (fun a b => voiceKeyLe a b = true) (loadPiperVoicesFromConfigDir dirs)
    ∧ (loadPiperVoicesFromConfigDir dirs).Perm (loadVoicesFromDirectory dirs) := by
  refine ⟨?_, ?_, ?_⟩
  · simp [loadVoicesFromDirectory, List.filterMap_append, List.filterMap_cons,
      fromPath_eq_none bad hbad]
  · exact List.sorted_mergeSort
      (fun a b c hab hbc => by
        simp only [voiceKeyLe, decide_eq_true_eq] at hab hbc ⊢
        exact le_trans hab hbc)
      (fun a b => by
        simp only [voiceKeyLe, Bool.or_eq_true, decide_eq_true_eq]
        exact le_total a.key b.key)
      (loadVoicesFromDirectory dirs)
  · exact List.mergeSort_perm (loadVoicesFromDirectory dirs) voiceKeyLe

/-- Witness for `voice_registry_enumeration` on a concrete directory
listing containing the unparsable name "zz". -/
theorem voice_registry_enumeration_witness :
    loadVoicesFromDirectory ["en-b-low", "zz", "en-a-high"] =
      loadVoicesFromDirectory ["en-b-low", "en-a-high"] :=
  (voice_registry_enumeration ["en-b-low"] ["en-a-high"] ["en-b-low", "zz", "en-a-high"]
    "zz" (by decide)).1

/-- C10: a text shorter than ten characters whose stripped characters all
lie in `IGNORED_PUNCS` is dropped before synthesis: `synthesize` returns
no chunks regardless of what the engine would have streamed for it. -/
theorem punctuation_only_dropped (text : String) (chunks : List (List Nat))
    (h1 : text.length < 10)
    (h2 : ∀ c ∈ (pyStrip text).toList, c ∈ IGNORED_PUNCS) :
    SonataVoice.synthesize text chunks = [] := by
  have hig : isIgnoredUtterance text = true := by
    unfold isIgnoredUtterance
    simp only [Bool.and_eq_true, decide_eq_true_eq, List.all_eq_true]
    exact ⟨h1, fun c hc => List.elem_eq_true_of_mem (h2 c hc)⟩
  simp [SonataVoice.synthesize, hig]

/-- Witness for `punctuation_only_dropped` at the text ",()" with a
nonempty engine stream. -/
theorem punctuation_only_dropped_witness :
    SonataVoice.synthesize ",()" [[1, 2, 3]] = [] :=
  punctuation_only_dropped ",()" [[1, 2, 3]] (by decide) (by decide)

end Sonata
